import Mathlib

/-!
Shallow embedding of the `apodmgr` utility (files `apod.py` and `mgrcfg.py`)
and proofs about its specified behaviour.

Modelling conventions:
* Python strings are `String`; Python `Optional[str]` fields (or required
  `str` fields that can receive `None` at runtime through `**kwargs`
  construction) are `Option String`.
* A JSON document, as produced by `json.dumps(asdict(apod))` and consumed by
  `APOD(**json.loads(...))`, is a list of key/value pairs `APODDoc`; values
  are restricted to strings, `null`, and (for `resources`) an opaque string
  mapping — the shapes the program itself reads and writes.
* The two archive directories are `ArchiveState`: the records directory is a
  list of `(filename, document)` pairs, the media directory a list of
  filenames (media bytes are irrelevant to every property proved here).
* The remote API is an oracle parameter mapping the request to the response
  document(s); each embedded operation additionally returns the number of
  remote HTTP requests it issued.  Non-2xx HTTP responses are not modelled:
  no property below depends on them.
* Python exceptions become `Except Err`; `Err` distinguishes the
  `ValueError`s raised by `_validate_data` (which name the violated field),
  other `ValueError`s, `TypeError`, `FileNotFoundError` and `HTTPError`.
* `re.match` anchors at the start of the string only; the embedded pattern
  matchers below therefore accept arbitrary trailing characters, exactly as
  the source's `re.match(APOD_DATE_FORMAT_RE, ...)` calls do.
-/

/-- Errors of the embedded program.  The three `valueError*` constructors are
the `ValueError`s raised by `APOD._validate_data`, whose messages name the
violated field (`date`, `title`, `url`/`hdurl`). -/
inductive Err where
  | valueErrorDate
  | valueErrorTitle
  | valueErrorUrl
  | valueError
  | typeError
  | fileNotFound
  | httpError
  deriving DecidableEq, Repr

/-- Does the regex `[0-9]{4}-[0-9]{2}-[0-9]{2}` match at the head of the
character list?  (`re.match` semantics: anchored at the start only, so any
trailing characters are accepted.) -/
def dateREList : List Char → Bool
  | a :: b :: c :: d :: e :: f :: g :: h :: i :: j :: _ =>
      a.isDigit && b.isDigit && c.isDigit && d.isDigit && (e == '-') &&
      f.isDigit && g.isDigit && (h == '-') && i.isDigit && j.isDigit
  | _ => false

/-- `re.match(APOD.APOD_DATE_FORMAT_RE, s) is not None`. -/
def re_match_date (s : String) : Bool := dateREList s.data

/-- Modelled from the spec: a string that is exactly a canonical
`YYYY-MM-DD` date — the full-string reading of "matches the canonical
date pattern" (ten characters, no trailing garbage).  Used only to compare
the source's prefix-anchored check against the spec's words. -/
def spec_canonical_date (s : String) : Bool :=
  match s.data with
  | [a, b, c, d, e, f, g, h, i, j] =>
      a.isDigit && b.isDigit && c.isDigit && d.isDigit && (e == '-') &&
      f.isDigit && g.isDigit && (h == '-') && i.isDigit && j.isDigit
  | _ => false

/-- A JSON value as read/written by the program: a string, `null`, or (for
the `resources` field) an opaque string-to-string mapping. -/
inductive JVal where
  | str : String → JVal
  | null : JVal
  | dict : List (String × String) → JVal
  deriving DecidableEq, Repr

/-- A parsed JSON object: association list of field name to value. -/
abbrev APODDoc := List (String × JVal)

/-- The `APOD` dataclass of `apod.py`, fields in source order.  `date` is a
`String` (every constructed record passes the `re.match` date check, which
raises `TypeError` on `None` before a record with a `None` date can exist);
the remaining textual fields can be `None` at runtime and are `Option
String`. -/
structure APOD where
  date : String
  title : Option String
  explanation : Option String
  url : Option String
  media_type : Option String
  hdurl : Option String := none
  concepts : Option String := none
  thumbnail_url : Option String := none
  copyright : Option String := none
  resources : Option (List (String × String)) := none
  service_version : Option String := none
  deriving DecidableEq, Repr

namespace APOD

/-- `APOD._validate_data`: raises `ValueError` (naming the offending field)
when the date fails the prefix-anchored pattern match, when the title is
falsy (`None` or empty), or when both `url` and `hdurl` are `None`. -/
def validate_data (a : APOD) : Except Err Unit :=
  if ¬ re_match_date a.date then Except.error Err.valueErrorDate
  else if a.title = none ∨ a.title = some "" then Except.error Err.valueErrorTitle
  else if a.url = none ∧ a.hdurl = none then Except.error Err.valueErrorUrl
  else Except.ok ()

/-- `APOD.__eq__`: equality is by `date` alone (both operands records). -/
def eq (a b : APOD) : Bool := a.date == b.date

/-- `APOD.best_url`: the Python expression `self.hdurl or self.url` — the
truthiness (`or`) semantics: `hdurl` when it is a non-`None`, non-empty
string, otherwise `url` (which itself can be `None`). -/
def best_url (a : APOD) : Option String :=
  match a.hdurl with
  | some s => if s = "" then a.url else some s
  | none => a.url

/-- `APOD.is_image`: `self.media_type == 'image'`. -/
def is_image (a : APOD) : Bool := a.media_type == some "image"

end APOD

/-- Characters strictly after the last `'.'` of the list, or `none` when no
`'.'` occurs (where Python's `str.rindex('.')` raises `ValueError`). -/
def afterLastDot : List Char → Option (List Char)
  | [] => none
  | c :: rest =>
      match afterLastDot rest with
      | some t => some t
      | none => if c = '.' then some rest else none

/-- The substring of `s` after its last `'.'`, when one exists. -/
def suffix_after_last_dot (s : String) : Option String :=
  (afterLastDot s.data).map fun l => ⟨l⟩

namespace APOD

/-- `APOD.media_extension`: the substring of `best_url` after the last `'.'`,
collapsed to `"jpg"` when longer than four characters.  Returns `none` where
the Python raises (`best_url` is `None`, or contains no `'.'`). -/
def media_extension (a : APOD) : Option String :=
  match a.best_url with
  | none => none
  | some u =>
      match suffix_after_last_dot u with
      | none => none
      | some ext => some (if ext.length > 4 then "jpg" else ext)

end APOD

/-- Image of an `Option String` field under `dataclasses.asdict`. -/
def jopt : Option String → JVal
  | some s => JVal.str s
  | none => JVal.null

/-- Image of the optional `resources` mapping under `dataclasses.asdict`. -/
def jdict : Option (List (String × String)) → JVal
  | some m => JVal.dict m
  | none => JVal.null

/-- `dataclasses.asdict(apod)`: all eleven fields, in declaration order. -/
def APOD.asdict (a : APOD) : APODDoc :=
  [("date", JVal.str a.date), ("title", jopt a.title),
   ("explanation", jopt a.explanation), ("url", jopt a.url),
   ("media_type", jopt a.media_type), ("hdurl", jopt a.hdurl),
   ("concepts", jopt a.concepts), ("thumbnail_url", jopt a.thumbnail_url),
   ("copyright", jopt a.copyright), ("resources", jdict a.resources),
   ("service_version", jopt a.service_version)]

/-- The keyword parameters `APOD(**kwargs)` accepts. -/
def apodKeys : List String :=
  ["date", "title", "explanation", "url", "media_type", "hdurl", "concepts",
   "thumbnail_url", "copyright", "resources", "service_version"]

/-- Required field `date`: an absent keyword is a `TypeError`; a `null`
value reaches `re.match(pattern, None)` which also raises `TypeError`. -/
def reqDate : Option JVal → Except Err String
  | some (JVal.str s) => Except.ok s
  | _ => Except.error Err.typeError

/-- A required textual field other than `date`: an absent keyword is a
`TypeError`; `null` is accepted and becomes `None`. -/
def reqStr : Option JVal → Except Err (Option String)
  | none => Except.error Err.typeError
  | some (JVal.str s) => Except.ok (some s)
  | some JVal.null => Except.ok none
  | some (JVal.dict _) => Except.error Err.typeError

/-- An optional textual field: an absent keyword defaults to `None`. -/
def optStr : Option JVal → Except Err (Option String)
  | none => Except.ok none
  | some (JVal.str s) => Except.ok (some s)
  | some JVal.null => Except.ok none
  | some (JVal.dict _) => Except.error Err.typeError

/-- The optional `resources` mapping field. -/
def optDict : Option JVal → Except Err (Option (List (String × String)))
  | none => Except.ok none
  | some (JVal.dict m) => Except.ok (some m)
  | some JVal.null => Except.ok none
  | some (JVal.str _) => Except.error Err.typeError

/-- `APOD(**doc)`: rejects unexpected keyword arguments (`TypeError`),
requires the five mandatory fields, then runs
`__post_init__` → `_validate_data`. -/
def apod_of_dict (d : APODDoc) : Except Err APOD :=
  if d.any (fun p => !(apodKeys.contains p.1)) then Except.error Err.typeError
  else do
    let date ← reqDate (d.lookup "date")
    let title ← reqStr (d.lookup "title")
    let explanation ← reqStr (d.lookup "explanation")
    let url ← reqStr (d.lookup "url")
    let media_type ← reqStr (d.lookup "media_type")
    let hdurl ← optStr (d.lookup "hdurl")
    let concepts ← optStr (d.lookup "concepts")
    let thumbnail_url ← optStr (d.lookup "thumbnail_url")
    let copyright ← optStr (d.lookup "copyright")
    let resources ← optDict (d.lookup "resources")
    let service_version ← optStr (d.lookup "service_version")
    let a : APOD := ⟨date, title, explanation, url, media_type, hdurl,
      concepts, thumbnail_url, copyright, resources, service_version⟩
    match a.validate_data with
    | Except.ok _ => Except.ok a
    | Except.error e => Except.error e

/-- `APOD.load_from`: opens the file in the given directory and constructs
`APOD(**json.loads(...))`. -/
def APOD.load_from (dir : List (String × APODDoc)) (name : String) : Except Err APOD :=
  match dir.lookup name with
  | none => Except.error Err.fileNotFound
  | some doc => apod_of_dict doc

/-- `APOD.fetch_single` (remote source client): `date=None` defaults to
today's date; the date string must pass the prefix-anchored pattern match
(`ValueError` otherwise); then one GET whose JSON body is given by the
oracle `remote`, and `APOD(**response.json())`.  The second component is
the number of HTTP requests issued. -/
def APOD.fetch_single (remote : String → APODDoc) (today : String) (date : Option String) : Except Err APOD × Nat :=
  let d := date.getD today
  if ¬ re_match_date d then (Except.error Err.valueError, 0)
  else (apod_of_dict (remote d), 1)

/-- `APOD.fetch_random` (remote source client): a count outside
`1 ≤ count ≤ 100` raises `ValueError` before any request; otherwise one GET
whose JSON array body is given by the oracle, each element constructed via
`APOD(**data)`.  The second component is the number of HTTP requests
issued. -/
def APOD.fetch_random (remote : Int → List APODDoc) (count : Int) : Except Err (List APOD) × Nat :=
  if ¬ (1 ≤ count ∧ count ≤ 100) then (Except.error Err.valueError, 0)
  else ((remote count).mapM apod_of_dict, 1)

/-- The filesystem state the archive manager touches: the records directory
(`apods_path`) as filename ↦ parsed JSON document, and the media directory
(`apods_media_path`) as a list of filenames (media bytes play no role in
any property below). -/
structure ArchiveState where
  apods : List (String × APODDoc)
  media : List String
  deriving DecidableEq, Repr

/-- Writing a file into a directory: the content under `name` is replaced,
filenames stay unique (semantics of `open(..., 'w')`). -/
def dirInsert (dir : List (String × APODDoc)) (name : String) (doc : APODDoc) : List (String × APODDoc) :=
  (name, doc) :: dir.filter (fun p => !(p.1 == name))

/-- Does `(jpg|png|mp4)` match at the head of the list (prefix semantics)? -/
def extStart : List Char → Bool
  | 'j' :: 'p' :: 'g' :: _ => true
  | 'p' :: 'n' :: 'g' :: _ => true
  | 'm' :: 'p' :: '4' :: _ => true
  | _ => false

/-- Does the regex `[0-9]{4}-[0-9]{2}-[0-9]{2}.(jpg|png|mp4)` match at the
head of the list?  The un-escaped `.` is a regex wildcard (`_w`), and
`re.match` accepts trailing characters. -/
def mediaREList : List Char → Bool
  | a :: b :: c :: d :: e :: f :: g :: h :: i :: j :: _w :: rest =>
      a.isDigit && b.isDigit && c.isDigit && d.isDigit && (e == '-') &&
      f.isDigit && g.isDigit && (h == '-') && i.isDigit && j.isDigit &&
      extStart rest
  | _ => false

/-- Modelled from the spec: a filename exactly of the canonical form
`{YYYY-MM-DD}.{ext}` with extension `jpg`, `png` or `mp4`. -/
def spec_media_name (s : String) : Bool :=
  match s.data with
  | a :: b :: c :: d :: e :: f :: g :: h :: i :: j :: '.' :: rest =>
      a.isDigit && b.isDigit && c.isDigit && d.isDigit && (e == '-') &&
      f.isDigit && g.isDigit && (h == '-') && i.isDigit && j.isDigit &&
      (rest == ['j', 'p', 'g'] || rest == ['p', 'n', 'g'] || rest == ['m', 'p', '4'])
  | _ => false

/-- The `ManagerConfiguration` dataclass of `mgrcfg.py` (fields in source
order).  The archive operations below act on an `ArchiveState` in place of
the two configured directory paths, and take the remote API as an oracle. -/
structure ManagerConfiguration where
  api_key : String
  apods_path : String
  apods_media_path : String
  deriving DecidableEq, Repr

/-- Keys accepted by `ManagerConfiguration(**data)`. -/
def mcfgKeys : List String := ["api_key", "apods_path", "apods_media_path"]

namespace ManagerConfiguration

/-- `ManagerConfiguration.load_from`, from the parsed JSON body onward (the
absent-file and malformed-JSON failures are upstream of every property
proved about it): requires `api_key` (`ValueError` otherwise); any key
outside the three dataclass fields makes `ManagerConfiguration(**data)`
raise `TypeError` (unexpected keyword argument); `_validate_data` then
rejects a blank credential (directory creation is a filesystem side effect
with no bearing on the returned value).  `dflt`/`dfltMedia` are the values
of `default_apods_dir()`/`default_apods_media_dir()`. -/
def load_from (dflt dfltMedia : String) (data : List (String × String)) : Except Err ManagerConfiguration :=
  if (data.lookup "api_key").isNone then Except.error Err.valueError
  else if data.any (fun p => !(mcfgKeys.contains p.1)) then Except.error Err.typeError
  else
    let cfg : ManagerConfiguration :=
      ⟨(data.lookup "api_key").getD "", (data.lookup "apods_path").getD dflt,
        (data.lookup "apods_media_path").getD dfltMedia⟩
    if cfg.api_key.trim = "" then Except.error Err.valueError
    else Except.ok cfg

/-- `ManagerConfiguration.store_apod`: writes `json.dumps(asdict(apod))` to
`{apod.date}.json` in the records directory and returns the record. -/
def store_apod (st : ArchiveState) (a : APOD) : ArchiveState :=
  { st with apods := dirInsert st.apods (a.date ++ ".json") a.asdict }

/-- `ManagerConfiguration.stored_media`: filters `listdir(self.apods_path)`
— the records directory, exactly as in the source — through
`re.match(f'{APOD.APOD_DATE_FORMAT_RE}.(jpg|png|mp4)', ...)`. -/
def stored_media (st : ArchiveState) : List String :=
  (st.apods.map Prod.fst).filter (fun f => mediaREList f.data)

/-- Modelled from the spec: `storedMediaFiles()` — "the same pattern over
the media directory for extensions `jpg|png|mp4`", i.e. the filenames of
the media directory of the canonical `{YYYY-MM-DD}.{ext}` form. -/
def spec_storedMediaFiles (st : ArchiveState) : List String :=
  st.media.filter (fun f => spec_media_name f)

/-- `ManagerConfiguration.stored_apod_file`: validates the date format
(`ValueError` otherwise), then searches the records-directory listing for
the exact filename `{date}.json`. -/
def stored_apod_file (st : ArchiveState) (date : String) : Except Err (Option String) :=
  if ¬ re_match_date date then Except.error Err.valueError
  else if (date ++ ".json") ∈ st.apods.map Prod.fst then
    Except.ok (some (date ++ ".json"))
  else Except.ok none

/-- The `return self.store_apod(APOD.fetch_single(self.api_key, date))`
line of `ManagerConfiguration.fetch_single`: delegate to the remote source
client and persist a successful result.  Components: result, new state,
number of HTTP requests issued. -/
def fetch_single_remote (remote : String → APODDoc) (today : String) (st : ArchiveState) (date : Option String) : Except Err APOD × ArchiveState × Nat :=
  match APOD.fetch_single remote today date with
  | (Except.ok a, n) => (Except.ok a, store_apod st a, n)
  | (Except.error e, n) => (Except.error e, st, n)

/-- `ManagerConfiguration.fetch_single`: cache-first.  With a non-`None`
date, `stored_apod_file` runs first (raising `ValueError` on a malformed
date); on a cache hit the cached file is read back via
`APOD(**json.loads(...))` with no HTTP request and no write; otherwise (and
always when `date` is `None`) it delegates to `APOD.fetch_single` and
persists the result.  Components: result, new state, number of HTTP
requests issued. -/
def fetch_single (remote : String → APODDoc) (today : String) (st : ArchiveState) (date : Option String) : Except Err APOD × ArchiveState × Nat :=
  match date with
  | some d =>
      match stored_apod_file st d with
      | Except.error e => (Except.error e, st, 0)
      | Except.ok (some fname) =>
          match st.apods.lookup fname with
          | some doc => (apod_of_dict doc, st, 0)
          | none => (Except.error Err.fileNotFound, st, 0)
      | Except.ok none => fetch_single_remote remote today st (some d)
  | none => fetch_single_remote remote today st none

/-- `ManagerConfiguration.save_media_for`: computes the destination
filename `{date}.{media_extension}` (where `media_extension` can raise,
modelled by `none`); returns silently when that filename already exists in
the media directory; otherwise requires an image record (`TypeError` for
non-image media), issues one GET of `best_url` (success given by `httpOk`,
`HTTPError` otherwise) and writes the body to the media directory.  The
third component counts HTTP requests issued. -/
def save_media_for (httpOk : Bool) (st : ArchiveState) (a : APOD) : Except Err Unit × ArchiveState × Nat :=
  match a.media_extension with
  | none => (Except.error Err.valueError, st, 0)
  | some ext =>
      let fname := a.date ++ "." ++ ext
      if fname ∈ st.media then (Except.ok (), st, 0)
      else if ¬ a.is_image then (Except.error Err.typeError, st, 0)
      else if ¬ httpOk then (Except.error Err.httpError, st, 1)
      else (Except.ok (), { st with media := fname :: st.media }, 1)

end ManagerConfiguration

/-! Helper lemmas shared by the claim proofs. -/

theorem reqStr_jopt (x : Option String) : reqStr (some (jopt x)) = Except.ok x := by
  cases x <;> rfl

theorem optStr_jopt (x : Option String) : optStr (some (jopt x)) = Except.ok x := by
  cases x <;> rfl

theorem optDict_jdict (x : Option (List (String × String))) :
    optDict (some (jdict x)) = Except.ok x := by
  cases x <;> rfl

/-- Deserializing `asdict(a)` of a valid record gives back exactly `a`. -/
theorem apod_of_dict_asdict (a : APOD) (h : a.validate_data = Except.ok ()) :
    apod_of_dict a.asdict = Except.ok a := by
  simp [apod_of_dict, APOD.asdict, apodKeys, List.lookup, reqStr_jopt, optStr_jopt,
    optDict_jdict, reqDate, bind, Except.bind, h]

/-- Characterization of successful validation. -/
theorem validate_data_ok_iff (a : APOD) :
    a.validate_data = Except.ok () ↔
      (re_match_date a.date = true ∧ ¬(a.title = none ∨ a.title = some "") ∧
        ¬(a.url = none ∧ a.hdurl = none)) := by
  unfold APOD.validate_data
  split_ifs with h1 h2 h3 <;> simp_all

/-- Every record produced by `APOD(**doc)` passed `_validate_data`. -/
theorem apod_of_dict_ok_validate (d : APODDoc) (a : APOD)
    (h : apod_of_dict d = Except.ok a) : a.validate_data = Except.ok () := by
  unfold apod_of_dict at h
  simp only [bind, Except.bind] at h
  repeat' split at h
  all_goals simp_all

/-- Reading back the filename just written. -/
theorem lookup_dirInsert_self (dir : List (String × APODDoc)) (n : String) (doc : APODDoc) :
    (dirInsert dir n doc).lookup n = some doc := by
  simp [dirInsert, List.lookup]

/-! Concrete sample records used by witnesses and counterexamples. -/

/-- A valid record with both `url` and a non-empty `hdurl`. -/
def recHd : APOD :=
  ⟨"2024-01-01", some "T", some "E", some "http://e/u.jpg", some "image",
    some "http://e/hd.jpg", none, none, none, none, none⟩

/-- A valid record with `url = None` and `hdurl = ""` (present but falsy). -/
def recEmptyHd : APOD :=
  ⟨"2024-01-01", some "T", some "E", none, some "image",
    some "", none, none, none, none, none⟩

/-- A valid record whose only URL contains no `'.'`. -/
def recNoDot : APOD :=
  ⟨"2024-01-01", some "T", some "E", some "nodotsurl", some "image",
    none, none, none, none, none, none⟩

/-- A valid record with a four-character media extension. -/
def recJpeg : APOD :=
  ⟨"2024-01-01", some "T", some "E", some "http://e/img.jpeg", some "image",
    none, none, none, none, none, none⟩

/-- A record whose date has a valid ten-character prefix followed by
trailing garbage. -/
def recBadDate : APOD :=
  ⟨"2024-01-01 BUT NOT A DATE", some "T", some "E", some "http://e/u.jpg",
    some "image", none, none, none, none, none, none⟩

/-- C3 counterexample: the record `recEmptyHd` satisfies the validation
invariant (its `hdurl` is present), yet `best_url` is `None` — Python's
`hdurl or url` skips the falsy empty `hdurl` and falls back to the null
`url`.  This refutes both "best_url equals hdurl when hdurl is present"
and "best_url is never null". -/
theorem C3_counterexample :
    recEmptyHd.validate_data = Except.ok () ∧
    recEmptyHd.hdurl = some "" ∧
    recEmptyHd.best_url = none := ⟨rfl, rfl, rfl⟩

/-- C3 (amended): for every record satisfying the validation invariant,
`best_url` equals `hdurl` when `hdurl` is present and non-empty, equals
`url` when `hdurl` is absent or empty, and is null exactly when `url` is
null and `hdurl` is the empty string. -/
theorem C3_best_url (a : APOD) (h : a.validate_data = Except.ok ()) :
    (∀ s, a.hdurl = some s → s ≠ "" → a.best_url = some s) ∧
    ((a.hdurl = none ∨ a.hdurl = some "") → a.best_url = a.url) ∧
    (a.best_url = none ↔ a.url = none ∧ a.hdurl = some "") := by
  rw [validate_data_ok_iff] at h
  obtain ⟨-, -, hu⟩ := h
  rcases hh : a.hdurl with _ | s
  · simp_all [APOD.best_url]
  · by_cases hs : s = "" <;> simp_all [APOD.best_url]

/-- C3 witness: the amended property evaluated on `recHd`. -/
theorem C3_witness :
    recHd.validate_data = Except.ok () ∧
    ((∀ s, recHd.hdurl = some s → s ≠ "" → recHd.best_url = some s) ∧
      ((recHd.hdurl = none ∨ recHd.hdurl = some "") → recHd.best_url = recHd.url) ∧
      (recHd.best_url = none ↔ recHd.url = none ∧ recHd.hdurl = some "")) :=
  ⟨rfl, C3_best_url recHd rfl⟩

/-- C5 counterexample: `recNoDot` is a valid record, but its `best_url`
contains no `'.'`, so `media_extension` raises (`str.rindex` ValueError)
instead of returning any string — refuting "for every Record,
media_extension returns a string of length at most 4". -/
theorem C5_counterexample :
    recNoDot.validate_data = Except.ok () ∧
    recNoDot.media_extension = none := ⟨rfl, rfl⟩

/-- C5 (amended): for every record whose `best_url` is present and contains
a `'.'`, `media_extension` returns the substring after the last `'.'`,
replaced by `"jpg"` when that suffix is longer than four characters; every
string it returns has length at most 4. -/
theorem C5_media_extension (a : APOD) (u e : String)
    (hu : a.best_url = some u) (he : suffix_after_last_dot u = some e) :
    a.media_extension = some (if e.length > 4 then "jpg" else e) ∧
    ∀ x, a.media_extension = some x → x.length ≤ 4 := by
  have hme : a.media_extension = some (if e.length > 4 then "jpg" else e) := by
    simp only [APOD.media_extension, hu, he]
  refine ⟨hme, fun x hx => ?_⟩
  rw [hme] at hx
  injection hx with hx
  subst hx
  by_cases hl : e.length > 4
  · rw [if_pos hl]; decide
  · rw [if_neg hl]; omega

/-- C5 witness: the amended property evaluated on `recJpeg`. -/
theorem C5_witness :
    recJpeg.best_url = some "http://e/img.jpeg" ∧
    suffix_after_last_dot "http://e/img.jpeg" = some "jpeg" ∧
    (recJpeg.media_extension = some (if "jpeg".length > 4 then "jpg" else "jpeg") ∧
      ∀ x, recJpeg.media_extension = some x → x.length ≤ 4) :=
  ⟨rfl, rfl, C5_media_extension recJpeg "http://e/img.jpeg" "jpeg" rfl rfl⟩

/-- C8 counterexample: the date of `recBadDate` is not a canonical
`YYYY-MM-DD` string, yet validation succeeds — `re.match` anchors only at
the start, so trailing garbage after a ten-character date prefix is
accepted.  This refutes "fails ... exactly when the date does not match
the canonical YYYY-MM-DD pattern". -/
theorem C8_counterexample :
    recBadDate.validate_data = Except.ok () ∧
    spec_canonical_date recBadDate.date = false := ⟨rfl, rfl⟩

/-- C8 (amended): validation fails with a `ValueError` naming the violated
field exactly when the date does not start with a `YYYY-MM-DD` pattern
(prefix-anchored: trailing characters are accepted), or the title is empty
or missing, or both `url` and `hdurl` are absent; and every record
produced by `APOD(**doc)` construction (so by `load_from` and every remote
fetch) passed this validation. -/
theorem C8_validate (a : APOD) :
    (a.validate_data = Except.error Err.valueErrorDate ↔ re_match_date a.date = false) ∧
    (a.validate_data = Except.error Err.valueErrorTitle ↔
      re_match_date a.date = true ∧ (a.title = none ∨ a.title = some "")) ∧
    (a.validate_data = Except.error Err.valueErrorUrl ↔
      re_match_date a.date = true ∧ ¬(a.title = none ∨ a.title = some "") ∧
        a.url = none ∧ a.hdurl = none) ∧
    (a.validate_data = Except.ok () ↔
      re_match_date a.date = true ∧ ¬(a.title = none ∨ a.title = some "") ∧
        (a.url ≠ none ∨ a.hdurl ≠ none)) ∧
    (∀ d : APODDoc, apod_of_dict d = Except.ok a → a.validate_data = Except.ok ()) := by
  refine ⟨?_, ?_, ?_, ?_, fun d hd => apod_of_dict_ok_validate d a hd⟩ <;>
  · unfold APOD.validate_data
    split_ifs with h1 h2 h3 <;> simp_all <;> tauto

/-- C8 witness: the characterization evaluated on `recBadDate`. -/
theorem C8_witness :
    (recBadDate.validate_data = Except.error Err.valueErrorDate ↔
      re_match_date recBadDate.date = false) ∧
    (recBadDate.validate_data = Except.error Err.valueErrorTitle ↔
      re_match_date recBadDate.date = true ∧
        (recBadDate.title = none ∨ recBadDate.title = some "")) ∧
    (recBadDate.validate_data = Except.error Err.valueErrorUrl ↔
      re_match_date recBadDate.date = true ∧
        ¬(recBadDate.title = none ∨ recBadDate.title = some "") ∧
        recBadDate.url = none ∧ recBadDate.hdurl = none) ∧
    (recBadDate.validate_data = Except.ok () ↔
      re_match_date recBadDate.date = true ∧
        ¬(recBadDate.title = none ∨ recBadDate.title = some "") ∧
        (recBadDate.url ≠ none ∨ recBadDate.hdurl ≠ none)) ∧
    (∀ d : APODDoc, apod_of_dict d = Except.ok recBadDate →
      recBadDate.validate_data = Except.ok ()) :=
  C8_validate recBadDate

/-- C6: round-trip — storing a valid record with `store_apod` and
reloading the written file `{date}.json` with `load_from` yields exactly
the original record (every field preserved), and any record so reloaded is
equal to the original under the date-based `__eq__`. -/
theorem C6_store_load_roundtrip (st : ArchiveState) (a : APOD)
    (h : a.validate_data = Except.ok ()) :
    APOD.load_from (ManagerConfiguration.store_apod st a).apods (a.date ++ ".json") =
      Except.ok a ∧
    ∀ b, APOD.load_from (ManagerConfiguration.store_apod st a).apods (a.date ++ ".json") =
      Except.ok b → APOD.eq b a = true := by
  have hl : (ManagerConfiguration.store_apod st a).apods.lookup (a.date ++ ".json") =
      some a.asdict := lookup_dirInsert_self st.apods (a.date ++ ".json") a.asdict
  have hload : APOD.load_from (ManagerConfiguration.store_apod st a).apods
      (a.date ++ ".json") = Except.ok a := by
    simp [APOD.load_from, hl, apod_of_dict_asdict a h]
  refine ⟨hload, fun b hb => ?_⟩
  rw [hload] at hb
  injection hb with hb
  subst hb
  simp [APOD.eq]

/-- C6 witness: round-trip evaluated on `recHd` over an empty archive. -/
theorem C6_witness :
    recHd.validate_data = Except.ok () ∧
    (APOD.load_from (ManagerConfiguration.store_apod ⟨[], []⟩ recHd).apods
        (recHd.date ++ ".json") = Except.ok recHd ∧
      ∀ b, APOD.load_from (ManagerConfiguration.store_apod ⟨[], []⟩ recHd).apods
        (recHd.date ++ ".json") = Except.ok b → APOD.eq b recHd = true) :=
  ⟨rfl, C6_store_load_roundtrip ⟨[], []⟩ recHd rfl⟩

/-- C7: `fetch_random` raises `ValueError` and issues no HTTP request for
any count outside `1 ≤ count ≤ 100`, and issues exactly one HTTP request
for every count within the bounds. -/
theorem C7_fetch_random_bounds (remote : Int → List APODDoc) (count : Int) :
    ((count < 1 ∨ 100 < count) →
      APOD.fetch_random remote count = (Except.error Err.valueError, 0)) ∧
    (1 ≤ count → count ≤ 100 → (APOD.fetch_random remote count).2 = 1) := by
  constructor
  · intro h
    unfold APOD.fetch_random
    rw [if_pos (by omega)]
  · intro h1 h2
    unfold APOD.fetch_random
    rw [if_neg (by omega)]

/-- C7 witness: the bounds behaviour at counts 0, 1, 100 and 101. -/
theorem C7_witness :
    APOD.fetch_random (fun _ => []) 0 = (Except.error Err.valueError, 0) ∧
    (APOD.fetch_random (fun _ => []) 1).2 = 1 ∧
    APOD.fetch_random (fun _ => []) 101 = (Except.error Err.valueError, 0) ∧
    (APOD.fetch_random (fun _ => []) 100).2 = 1 :=
  ⟨(C7_fetch_random_bounds (fun _ => []) 0).1 (Or.inl (by decide)),
    (C7_fetch_random_bounds (fun _ => []) 1).2 (by decide) (by decide),
    (C7_fetch_random_bounds (fun _ => []) 101).1 (Or.inr (by decide)),
    (C7_fetch_random_bounds (fun _ => []) 100).2 (by decide) (by decide)⟩

/-- C10: a configuration body that contains `api_key` together with any
key outside the three dataclass fields makes `load_from` fail with the
unexpected-keyword `TypeError` from `ManagerConfiguration(**data)` rather
than ignoring the unknown field. -/
theorem C10_load_from_unknown_key (dflt dfltMedia : String)
    (data : List (String × String)) (k : String)
    (hak : (data.lookup "api_key").isSome = true)
    (hk : k ∈ data.map Prod.fst)
    (hbad : mcfgKeys.contains k = false) :
    ManagerConfiguration.load_from dflt dfltMedia data = Except.error Err.typeError := by
  have hany : data.any (fun p => !(mcfgKeys.contains p.1)) = true := by
    rw [List.any_eq_true]
    obtain ⟨p, hp, hp1⟩ := List.mem_map.mp hk
    exact ⟨p, hp, by rw [hp1, hbad]; rfl⟩
  unfold ManagerConfiguration.load_from
  rw [if_neg (by simp_all), if_pos hany]

/-- C10 witness: a body with `api_key` and the unknown key `extra`. -/
theorem C10_witness :
    (([("api_key", "K"), ("extra", "V")] : List (String × String)).lookup "api_key").isSome = true ∧
    "extra" ∈ ([("api_key", "K"), ("extra", "V")] : List (String × String)).map Prod.fst ∧
    mcfgKeys.contains "extra" = false ∧
    ManagerConfiguration.load_from "D" "M" [("api_key", "K"), ("extra", "V")] =
      Except.error Err.typeError :=
  ⟨by decide, by decide, by decide,
    C10_load_from_unknown_key "D" "M" [("api_key", "K"), ("extra", "V")] "extra"
      (by decide) (by decide) (by decide)⟩

/-- A lookup in an association list succeeds exactly when the key occurs in
the listing of first components. -/
theorem lookup_isSome_iff {β : Type} (l : List (String × β)) (k : String) :
    (l.lookup k).isSome = true ↔ k ∈ l.map Prod.fst := by
  induction l with
  | nil => simp [List.lookup]
  | cons p t ih =>
    simp only [List.lookup, List.map_cons, List.mem_cons]
    cases hb : (k == p.1) with
    | false =>
        have hne : k ≠ p.1 := fun h => by simp [h] at hb
        simp [hb, ih, hne]
    | true =>
        have he : k = p.1 := eq_of_beq hb
        simp [hb, he]

theorem mem_fst_of_lookup_eq_some {β : Type} {l : List (String × β)} {k : String} {v : β}
    (h : l.lookup k = some v) : k ∈ l.map Prod.fst :=
  (lookup_isSome_iff l k).mp (by simp [h])

theorem not_mem_fst_of_lookup_eq_none {β : Type} {l : List (String × β)} {k : String}
    (h : l.lookup k = none) : k ∉ l.map Prod.fst := fun hm => by
  have hs := (lookup_isSome_iff l k).mpr hm
  simp [h] at hs

/-- Cache hit: with a well-formed date whose record file exists, the
manager's `fetch_single` deserializes the cached file, touches nothing and
issues no request. -/
theorem fetch_single_cache_hit (remote : String → APODDoc) (today : String)
    (st : ArchiveState) (d : String) (doc : APODDoc)
    (hd : re_match_date d = true) (hl : st.apods.lookup (d ++ ".json") = some doc) :
    ManagerConfiguration.fetch_single remote today st (some d) = (apod_of_dict doc, st, 0) := by
  have hmem : (d ++ ".json") ∈ st.apods.map Prod.fst := mem_fst_of_lookup_eq_some hl
  have hsf : ManagerConfiguration.stored_apod_file st d =
      Except.ok (some (d ++ ".json")) := by
    unfold ManagerConfiguration.stored_apod_file
    rw [if_neg (by simp [hd]), if_pos hmem]
  simp only [ManagerConfiguration.fetch_single, hsf, hl]

/-- Cache miss: with a well-formed date whose record file does not exist,
the manager's `fetch_single` falls through to the remote branch. -/
theorem fetch_single_cache_miss (remote : String → APODDoc) (today : String)
    (st : ArchiveState) (d : String)
    (hd : re_match_date d = true) (hl : st.apods.lookup (d ++ ".json") = none) :
    ManagerConfiguration.fetch_single remote today st (some d) =
      ManagerConfiguration.fetch_single_remote remote today st (some d) := by
  have hmem : (d ++ ".json") ∉ st.apods.map Prod.fst := not_mem_fst_of_lookup_eq_none hl
  have hsf : ManagerConfiguration.stored_apod_file st d = Except.ok none := by
    unfold ManagerConfiguration.stored_apod_file
    rw [if_neg (by simp [hd]), if_neg hmem]
  simp only [ManagerConfiguration.fetch_single, hsf]

/-- The remote branch with a well-formed explicit date and a response that
constructs: one request, the record persisted under its own date. -/
theorem fetch_single_remote_ok (remote : String → APODDoc) (today : String)
    (st : ArchiveState) (d : String) (a : APOD)
    (hd : re_match_date d = true) (ha : apod_of_dict (remote d) = Except.ok a) :
    ManagerConfiguration.fetch_single_remote remote today st (some d) =
      (Except.ok a, ManagerConfiguration.store_apod st a, 1) := by
  unfold ManagerConfiguration.fetch_single_remote APOD.fetch_single
  simp [hd, ha]

/-- C1: the archive's `fetch_single` is cache-first.  For a well-formed
non-null date: a cached `{date}.json` is deserialized and returned with no
HTTP request and no write; otherwise one request is issued and the returned
record is persisted to `{record.date}.json` before being returned.  With
`date = None` a request is always issued (today's date being well formed),
regardless of cache state.  Two successive calls with the same
previously-uncached date (the remote answering with a record of that date)
issue exactly one request in total. -/
theorem C1_fetch_single_cache_first (remote : String → APODDoc) (today : String)
    (st : ArchiveState) (d : String) (hd : re_match_date d = true) :
    (∀ doc, st.apods.lookup (d ++ ".json") = some doc →
      ManagerConfiguration.fetch_single remote today st (some d) =
        (apod_of_dict doc, st, 0)) ∧
    (st.apods.lookup (d ++ ".json") = none →
      ∀ a, apod_of_dict (remote d) = Except.ok a →
        ManagerConfiguration.fetch_single remote today st (some d) =
          (Except.ok a, ManagerConfiguration.store_apod st a, 1)) ∧
    (re_match_date today = true →
      (ManagerConfiguration.fetch_single remote today st none).2.2 = 1) ∧
    (st.apods.lookup (d ++ ".json") = none →
      ∀ a, apod_of_dict (remote d) = Except.ok a → a.date = d →
        (ManagerConfiguration.fetch_single remote today st (some d)).2.2 +
          (ManagerConfiguration.fetch_single remote today
            (ManagerConfiguration.fetch_single remote today st (some d)).2.1
            (some d)).2.2 = 1) := by
  have hmiss : st.apods.lookup (d ++ ".json") = none →
      ∀ a, apod_of_dict (remote d) = Except.ok a →
        ManagerConfiguration.fetch_single remote today st (some d) =
          (Except.ok a, ManagerConfiguration.store_apod st a, 1) := by
    intro hl a ha
    rw [fetch_single_cache_miss remote today st d hd hl,
      fetch_single_remote_ok remote today st d a hd ha]
  refine ⟨fun doc hl => fetch_single_cache_hit remote today st d doc hd hl,
    hmiss, fun htoday => ?_, fun hl a ha hdate => ?_⟩
  · unfold ManagerConfiguration.fetch_single ManagerConfiguration.fetch_single_remote
      APOD.fetch_single
    cases hres : apod_of_dict (remote today) <;> simp [htoday, hres]
  · rw [hmiss hl a ha]
    have hl2 : (ManagerConfiguration.store_apod st a).apods.lookup (d ++ ".json") =
        some a.asdict := by
      rw [← hdate]
      exact lookup_dirInsert_self st.apods (a.date ++ ".json") a.asdict
    rw [fetch_single_cache_hit remote today (ManagerConfiguration.store_apod st a) d
      a.asdict hd hl2]
    rfl

/-- A remote oracle for witnesses: every request answers with the
serialization of `recHd` (whose date is `2024-01-01`). -/
def oracleHd : String → APODDoc := fun _ => recHd.asdict

/-- C1 witness: the cache-first property evaluated over an empty archive,
the date `2024-01-01` and the oracle `oracleHd`. -/
theorem C1_witness :
    re_match_date "2024-01-01" = true ∧
    ((∀ doc, (ArchiveState.mk [] []).apods.lookup ("2024-01-01" ++ ".json") = some doc →
      ManagerConfiguration.fetch_single oracleHd "2024-01-02" ⟨[], []⟩ (some "2024-01-01") =
        (apod_of_dict doc, ⟨[], []⟩, 0)) ∧
    ((ArchiveState.mk [] []).apods.lookup ("2024-01-01" ++ ".json") = none →
      ∀ a, apod_of_dict (oracleHd "2024-01-01") = Except.ok a →
        ManagerConfiguration.fetch_single oracleHd "2024-01-02" ⟨[], []⟩ (some "2024-01-01") =
          (Except.ok a, ManagerConfiguration.store_apod ⟨[], []⟩ a, 1)) ∧
    (re_match_date "2024-01-02" = true →
      (ManagerConfiguration.fetch_single oracleHd "2024-01-02" ⟨[], []⟩ none).2.2 = 1) ∧
    ((ArchiveState.mk [] []).apods.lookup ("2024-01-01" ++ ".json") = none →
      ∀ a, apod_of_dict (oracleHd "2024-01-01") = Except.ok a → a.date = "2024-01-01" →
        (ManagerConfiguration.fetch_single oracleHd "2024-01-02" ⟨[], []⟩ (some "2024-01-01")).2.2 +
          (ManagerConfiguration.fetch_single oracleHd "2024-01-02"
            (ManagerConfiguration.fetch_single oracleHd "2024-01-02" ⟨[], []⟩
              (some "2024-01-01")).2.1
            (some "2024-01-01")).2.2 = 1)) :=
  ⟨rfl, C1_fetch_single_cache_first oracleHd "2024-01-02" ⟨[], []⟩ "2024-01-01" rfl⟩

/-- A valid video record (its `best_url` extension is `mp4`). -/
def recVideo : APOD :=
  ⟨"2024-01-01", some "T", some "E", some "http://x/v.mp4", some "video",
    none, none, none, none, none, none⟩

/-- C2: `stored_media` scans the records directory (`apods_path`), not the
media directory — with the media file `2024-01-01.jpg` present in the
media directory (exactly what `save_media_for` would have written there)
and the records directory empty, the code yields nothing, while the
specified `storedMediaFiles()` (the same pattern over the media directory)
yields that file. -/
theorem C2_stored_media_wrong_directory :
    ManagerConfiguration.stored_media ⟨[], ["2024-01-01.jpg"]⟩ = [] ∧
    ManagerConfiguration.spec_storedMediaFiles ⟨[], ["2024-01-01.jpg"]⟩ =
      ["2024-01-01.jpg"] := ⟨rfl, rfl⟩

/-- C4 counterexample: `save_media_for` on the video record `recVideo`
when `2024-01-01.mp4` already exists in the media directory returns
silently — no `TypeError`, because the existence check precedes the
`is_image` check.  This refutes "for every Record with
media_type = video, saveMediaFor fails with a type-mismatch error". -/
theorem C4_counterexample :
    recVideo.media_type = some "video" ∧
    ManagerConfiguration.save_media_for true ⟨[], ["2024-01-01.mp4"]⟩ recVideo =
      (Except.ok (), ⟨[], ["2024-01-01.mp4"]⟩, 0) := ⟨rfl, rfl⟩

/-- C4 (amended): for every non-image record whose media filename
`{date}.{extension}` is computable, `save_media_for` raises the
type-mismatch `TypeError` and writes nothing — unless that filename
already exists in the media directory, in which case it returns silently
without error, download or write. -/
theorem C4_save_media_nonimage (httpOk : Bool) (st : ArchiveState) (a : APOD)
    (ext : String) (hext : a.media_extension = some ext) (hni : a.is_image = false) :
    ((a.date ++ "." ++ ext) ∉ st.media →
      ManagerConfiguration.save_media_for httpOk st a =
        (Except.error Err.typeError, st, 0)) ∧
    ((a.date ++ "." ++ ext) ∈ st.media →
      ManagerConfiguration.save_media_for httpOk st a = (Except.ok (), st, 0)) := by
  constructor <;> intro hc <;>
    simp only [ManagerConfiguration.save_media_for, hext] <;>
    simp [hc, hni]

/-- C4 witness: the amended property evaluated on `recVideo` over an empty
media directory. -/
theorem C4_witness :
    recVideo.media_extension = some "mp4" ∧
    recVideo.is_image = false ∧
    ((("2024-01-01" ++ "." ++ "mp4") ∉ (ArchiveState.mk [] []).media →
      ManagerConfiguration.save_media_for true ⟨[], []⟩ recVideo =
        (Except.error Err.typeError, ⟨[], []⟩, 0)) ∧
    (("2024-01-01" ++ "." ++ "mp4") ∈ (ArchiveState.mk [] []).media →
      ManagerConfiguration.save_media_for true ⟨[], []⟩ recVideo =
        (Except.ok (), ⟨[], []⟩, 0))) :=
  ⟨rfl, rfl, C4_save_media_nonimage true ⟨[], []⟩ recVideo "mp4" rfl rfl⟩

/-- C9: `save_media_for` is idempotent.  When the media file
`{date}.{extension}` already exists, the call returns with no download and
no write; and for an image record with a successful download (the
filesystem holding at most one file of that name, as filesystems do),
running the operation twice issues at most one download in total and
leaves exactly one file at the destination path. -/
theorem C9_save_media_idempotent (httpOk : Bool) (st : ArchiveState) (a : APOD)
    (ext : String) (hext : a.media_extension = some ext) :
    ((a.date ++ "." ++ ext) ∈ st.media →
      ManagerConfiguration.save_media_for httpOk st a = (Except.ok (), st, 0)) ∧
    (a.is_image = true → httpOk = true → st.media.count (a.date ++ "." ++ ext) ≤ 1 →
      (ManagerConfiguration.save_media_for httpOk st a).2.2 +
        (ManagerConfiguration.save_media_for httpOk
          (ManagerConfiguration.save_media_for httpOk st a).2.1 a).2.2 ≤ 1 ∧
      (ManagerConfiguration.save_media_for httpOk
        (ManagerConfiguration.save_media_for httpOk st a).2.1 a).2.1.media.count
          (a.date ++ "." ++ ext) = 1) := by
  have hnoop : (a.date ++ "." ++ ext) ∈ st.media →
      ManagerConfiguration.save_media_for httpOk st a = (Except.ok (), st, 0) := by
    intro hc
    simp only [ManagerConfiguration.save_media_for, hext]
    simp [hc]
  refine ⟨hnoop, fun himg hhttp hcount => ?_⟩
  by_cases hmem : (a.date ++ "." ++ ext) ∈ st.media
  · have hpos : 0 < st.media.count (a.date ++ "." ++ ext) :=
      List.count_pos_iff.mpr hmem
    refine ⟨by simp [hnoop hmem], ?_⟩
    simp [hnoop hmem]
    omega
  · have hfirst : ManagerConfiguration.save_media_for httpOk st a =
        (Except.ok (), { st with media := (a.date ++ "." ++ ext) :: st.media }, 1) := by
      simp only [ManagerConfiguration.save_media_for, hext]
      simp [hmem, himg, hhttp]
    have hmem2 : (a.date ++ "." ++ ext) ∈
        ({ st with media := (a.date ++ "." ++ ext) :: st.media } : ArchiveState).media :=
      List.mem_cons_self _ _
    have hsecond : ManagerConfiguration.save_media_for httpOk
        ({ st with media := (a.date ++ "." ++ ext) :: st.media }) a =
        (Except.ok (), { st with media := (a.date ++ "." ++ ext) :: st.media }, 0) := by
      simp only [ManagerConfiguration.save_media_for, hext]
      simp [hmem2]
    have hzero : st.media.count (a.date ++ "." ++ ext) = 0 :=
      List.count_eq_zero.mpr hmem
    refine ⟨?_, ?_⟩ <;> simp [hfirst, hsecond, List.count_cons_self, hzero]

/-- C9 witness: the idempotence property evaluated on `recJpeg` starting
from an empty media directory. -/
theorem C9_witness :
    recJpeg.media_extension = some "jpeg" ∧
    ((("2024-01-01" ++ "." ++ "jpeg") ∈ (ArchiveState.mk [] []).media →
      ManagerConfiguration.save_media_for true ⟨[], []⟩ recJpeg =
        (Except.ok (), ⟨[], []⟩, 0)) ∧
    (recJpeg.is_image = true → true = true →
      (ArchiveState.mk [] []).media.count ("2024-01-01" ++ "." ++ "jpeg") ≤ 1 →
      (ManagerConfiguration.save_media_for true ⟨[], []⟩ recJpeg).2.2 +
        (ManagerConfiguration.save_media_for true
          (ManagerConfiguration.save_media_for true ⟨[], []⟩ recJpeg).2.1 recJpeg).2.2 ≤ 1 ∧
      (ManagerConfiguration.save_media_for true
        (ManagerConfiguration.save_media_for true ⟨[], []⟩ recJpeg).2.1 recJpeg).2.1.media.count
          ("2024-01-01" ++ "." ++ "jpeg") = 1)) :=
  ⟨rfl, C9_save_media_idempotent true ⟨[], []⟩ recJpeg "jpeg" rfl⟩
